import Mathlib

/-!
Shallow embedding of `src/main.go` (machbase/neo-jupyter), a minimal process
supervisor for a jupyter notebook server.

Modelling conventions:
* Go strings are Lean `String`s; the Go standard-library string operations
  used by the source (`strings.Contains`, `strings.ReplaceAll`,
  `strings.Split` with a one-character separator) are re-implemented on
  `List Char` so that every definition evaluates inside the kernel.
* OS interaction is an explicit effect vocabulary (`Effect`): spawning a
  command (`exec.Cmd.Start`, succeeding or failing), delivering a signal,
  and writing a line to stdout/stderr.  Log messages carry the source's
  format string; the `fmt` formatting of the arguments is elided.
* Non-deterministic OS results (spawn success, `Wait` error, the value of
  `jl.cmd == nil` observed at each received timer tick, `os.UserHomeDir`,
  `os.Stat` existence) are oracle parameters of the embedded functions.
* A Go method that can block forever returns `Option …`, with `none`
  meaning the call never returns.
-/

/-- Embedding of Go `strings.Contains` on char lists: does `pat` occur as a
contiguous sublist?  (`hasSubChars pat s`). -/
def hasSubChars (pat : List Char) : List Char → Bool
  | [] => pat.isEmpty
  | c :: rest => pat.isPrefixOf (c :: rest) || hasSubChars pat rest

/-- Go `strings.Contains s pat`. -/
def containsSub (s pat : String) : Bool :=
  hasSubChars pat.data s.data

/-- Fuelled worker for Go `strings.ReplaceAll`: replaces non-overlapping
occurrences of `pat` left to right.  The fuel is the length of the input, an
upper bound on the number of steps; the `0, s => s` arm is never reached when
called with that fuel (the source only uses a non-empty pattern). -/
def replGo (pat rep : List Char) : Nat → List Char → List Char
  | _, [] => []
  | 0, s => s
  | fuel + 1, c :: rest =>
    if pat.isPrefixOf (c :: rest) && !pat.isEmpty then
      rep ++ replGo pat rep fuel (List.drop pat.length (c :: rest))
    else
      c :: replGo pat rep fuel rest

/-- Go `strings.ReplaceAll s pat rep`. -/
def goReplaceAll (s pat rep : String) : String :=
  String.mk (replGo pat.data rep.data s.data.length s.data)

/-- Go `strings.Split s sep` for a one-character separator `sep` (the only
form the source uses, with `filepath.ListSeparator`). -/
def splitChars (sep : Char) : List Char → List (List Char)
  | [] => [[]]
  | c :: rest =>
    if c == sep then [] :: splitChars sep rest
    else
      match splitChars sep rest with
      | [] => [[c]]
      | t :: ts => (c :: t) :: ts

/-- Specification of a command to be run (`exec.Command` plus the fields the
source sets before `Start`).  `env = none` models Go's `nil` `Cmd.Env`
(child inherits the parent's environment); `env = some xs` models an
explicitly assigned environment slice. -/
structure CmdSpec where
  prog : String
  args : List String
  env : Option (List String)
  inheritStdio : Bool
deriving DecidableEq

/-- A live `*exec.Cmd` handle.  `processSet` models `Cmd.Process != nil`
(populated by a successful OS spawn). -/
structure Cmd where
  spec : CmdSpec
  processSet : Bool
deriving DecidableEq

/-- Observable OS actions of the supervisor.  `signal` is in the vocabulary
(delivery of an interrupt/termination signal to a pid or process group) but,
as proved below, the source never emits it: its shutdown path runs a
`server stop` subcommand instead. -/
inductive Effect where
  | spawnOk (c : CmdSpec)
  | spawnFail (c : CmdSpec)
  | signal (sig : String) (target : String)
  | logOut (msg : String)
  | logErr (msg : String)
deriving DecidableEq

/-- The supervisor state, `type JupyterLash struct` (src/main.go:57-63).
The embedded mutex is not represented: `Start`/`Stop` are embedded as atomic
steps, which is exactly the mutual exclusion the lock provides. -/
structure JupyterLash where
  pythonBin : String
  jupyterBin : String
  notebookDir : String
  cmd : Option Cmd
deriving DecidableEq

/-- Environment slice built at src/main.go:89-92: `Env = []string{}` and then
`HOME=<home>` appended only when `os.UserHomeDir()` succeeds. -/
def homeEnv : Option String → List String
  | some h => ["HOME=" ++ h]
  | none => []

/-- The child command built at src/main.go:85-92: python runs the jupyter
binary with the fixed arguments, inherits the supervisor's stdio streams, and
gets the explicit (at-most-`HOME`) environment. -/
def JupyterLash.startCmd (jl : JupyterLash) (home : Option String) : CmdSpec :=
  { prog := jl.pythonBin
    args := [jl.jupyterBin, "lab", "-y", "--no-browser", "--notebook-dir", jl.notebookDir]
    env := some (homeEnv home)
    inheritStdio := true }

/-- Embedding of `start0` (src/main.go:83-116).  `Start` returns once the
goroutine has reported the result of `cmd.Start()` through `startWg`; the
rest of the goroutine (the exit watcher) is `watcherExit` below.  On spawn
failure the goroutine assigns `jl.cmd = nil` and logs (lines 97-101).  On
spawn success NO assignment to `jl.cmd` happens anywhere in the source —
the only assignments are `jl.cmd = nil` at lines 98 and 113 — so the state
is returned untouched. -/
def JupyterLash.start0 (jl : JupyterLash) (home : Option String) (spawnOk : Bool) :
    JupyterLash × List Effect :=
  let c := jl.startCmd home
  if spawnOk then
    (jl, [Effect.spawnOk c])
  else
    ({ jl with cmd := none }, [Effect.spawnFail c, Effect.logErr "fail to start: cmd:%q error:%v"])

/-- Embedding of `Start` (src/main.go:65-72): under the lock, return
immediately when a handle is present, otherwise run `start0`.  The Go method
has no return value, so no error is ever propagated to the caller. -/
def JupyterLash.Start (jl : JupyterLash) (home : Option String) (spawnOk : Bool) :
    JupyterLash × List Effect :=
  match jl.cmd with
  | some _ => (jl, [])
  | none => jl.start0 home spawnOk

/-- Embedding of the tail of the `start0` goroutine after `cmd.Wait()`
returns (src/main.go:105-113): log a wait error, or — when the handle and
its process are non-nil — log the exit code; then assign `jl.cmd = nil`. -/
def JupyterLash.watcherExit (jl : JupyterLash) (waitErr : Bool) : JupyterLash × List Effect :=
  let effs :=
    if waitErr then [Effect.logErr "fail to run: %v"]
    else
      match jl.cmd with
      | some c => if c.processSet then [Effect.logOut "exit code"] else []
      | none => []
  ({ jl with cmd := none }, effs)

/-- The shutdown subcommand built at src/main.go:122-125:
`exec.Command(jl.jupyterBin, "server", "stop")` with inherited stdio and no
`Env` assignment (`nil`, i.e. inherited environment). -/
def JupyterLash.stopCmd (jl : JupyterLash) : CmdSpec :=
  { prog := jl.jupyterBin
    args := ["server", "stop"]
    env := none
    inheritStdio := true }

/-- Result of the polling loop in `stop0`. -/
inductive PollOutcome where
  | exited
  | timedOut
  | blocked
deriving DecidableEq

/-- Embedding of the `for range tick.C` loop at src/main.go:140-152.
`cmdNilAt i` is the value of `jl.cmd == nil` observed at the i-th received
tick; `ticks` is how many ticks the timer will still deliver.  Each loop
iteration first receives a tick; when no further tick will ever arrive the
receive blocks forever (`blocked`).  The body checks `jl.cmd == nil`
(break), increments `count`, and breaks with a timeout log once
`count * 100ms > 5s`. -/
def pollLoop (cmdNilAt : Nat → Bool) : Nat → Nat → PollOutcome
  | _, 0 => PollOutcome.blocked
  | count, ticks + 1 =>
    if cmdNilAt count then PollOutcome.exited
    else if (count + 1) * 100 > 5000 then PollOutcome.timedOut
    else pollLoop cmdNilAt (count + 1) ticks

/-- Embedding of `stop0` (src/main.go:118-155): silently return when the
handle or its process is nil; spawn `jupyter server stop` (log and return on
spawn failure); wait for it (logging a wait error); then run the polling
goroutine and `wg.Wait()` for it.  The source creates the timer with
`time.NewTimer(100ms)`, which delivers exactly ONE tick — hence the literal
`1` passed to `pollLoop`.  A `blocked` poll means `stop0` never returns,
embedded as `none`. -/
def JupyterLash.stop0 (jl : JupyterLash) (spawnOk waitErr : Bool) (cmdNilAt : Nat → Bool) :
    Option (List Effect) :=
  match jl.cmd with
  | none => some []
  | some c =>
    if c.processSet = false then some []
    else
      let sc := jl.stopCmd
      if spawnOk = false then
        some [Effect.spawnFail sc, Effect.logErr "fail to stop: cmd:%q error:%v"]
      else
        let pre := Effect.spawnOk sc :: (if waitErr then [Effect.logErr "fail to run: %v"] else [])
        match pollLoop cmdNilAt 0 1 with
        | PollOutcome.blocked => none
        | PollOutcome.timedOut => some (pre ++ [Effect.logErr "timeout"])
        | PollOutcome.exited => some pre

/-- Embedding of `Stop` (src/main.go:74-81): under the lock, return
immediately when no handle is present, otherwise run `stop0`.  `Stop` itself
never writes `jl.cmd` (only the watcher goroutine does), so the state is
returned unchanged. -/
def JupyterLash.Stop (jl : JupyterLash) (spawnOk waitErr : Bool) (cmdNilAt : Nat → Bool) :
    Option (JupyterLash × List Effect) :=
  match jl.cmd with
  | none => some (jl, [])
  | some _ => (jl.stop0 spawnOk waitErr cmdNilAt).map (fun effs => (jl, effs))

/-- An atomic step of the supervisor: a `Start` call, a `Stop` call, or the
detached watcher observing child exit.  Oracle arguments carry the
OS-dependent outcomes. -/
inductive Op where
  | start (home : Option String) (spawnOk : Bool)
  | stop (spawnOk waitErr : Bool) (cmdNilAt : Nat → Bool)
  | childExit (waitErr : Bool)

/-- Apply one step to the supervisor state. -/
def applyOp (jl : JupyterLash) : Op → Option (JupyterLash × List Effect)
  | Op.start home spawnOk => some (jl.Start home spawnOk)
  | Op.stop spawnOk waitErr cmdNilAt => jl.Stop spawnOk waitErr cmdNilAt
  | Op.childExit waitErr => some (jl.watcherExit waitErr)

/-- Run a sequence of steps, accumulating the emitted effects; `none` when
some step never returns. -/
def runEff (jl : JupyterLash) : List Op → Option (JupyterLash × List Effect)
  | [] => some (jl, [])
  | op :: ops =>
    match applyOp jl op with
    | none => none
    | some (jl1, e1) =>
      match runEff jl1 ops with
      | none => none
      | some (jl2, e2) => some (jl2, e1 ++ e2)

/-- Number of successful OS spawns in an effect trace. -/
def countSpawns (effs : List Effect) : Nat :=
  effs.countP (fun e => match e with | Effect.spawnOk _ => true | _ => false)

/-- Whether an effect trace contains a signal delivery. -/
def hasSignal (effs : List Effect) : Bool :=
  effs.any (fun e => match e with | Effect.signal _ _ => true | _ => false)

/-- Candidate list of `findPython` (src/main.go:158-161). -/
def pythonCandidates : List String :=
  ["/usr/bin/python3", "/usr/bin/python"]

/-- Raw candidate list of `findJupyterExecutable` (src/main.go:172-175),
before `$HOME` expansion. -/
def jupyterCandidatesRaw : List String :=
  ["$HOME/.local/bin/jupyter", "/usr/local/bin/jupyter"]

/-- The per-candidate `$HOME` expansion at src/main.go:178-182: when the
candidate contains `$HOME` and `os.UserHomeDir()` succeeds, every occurrence
is replaced by the home directory. -/
def expandHome (home : Option String) (path : String) : String :=
  if containsSub path "$HOME" then
    match home with
    | some h => goReplaceAll path "$HOME" h
    | none => path
  else path

/-- The shared probing loop of both finders: return the first candidate for
which `os.Stat` succeeds (`fsExists`), or the empty string. -/
def firstExisting (fsExists : String → Bool) : List String → String
  | [] => ""
  | p :: rest => if fsExists p then p else firstExisting fsExists rest

/-- Embedding of `findPython` (src/main.go:157-169), with `os.Stat`
abstracted as the oracle `fsExists`. -/
def findPython (fsExists : String → Bool) : String :=
  firstExisting fsExists pythonCandidates

/-- Embedding of `findJupyterExecutable` (src/main.go:171-188): each raw
candidate is `$HOME`-expanded and the first existing expanded path is
returned.  (The source expands inside the probing loop; expanding the whole
list first and then probing visits the same paths in the same order.) -/
def findJupyterExecutable (fsExists : String → Bool) (home : Option String) : String :=
  firstExisting fsExists (jupyterCandidatesRaw.map (expandHome home))

/-- Modelled from the spec: the jupyter candidate list as the claim states
it — `${HOME}/.local/bin/jupyter`, `/home/${USER}/.local/bin/jupyter`,
`/usr/local/bin/jupyter` — which is NOT the list in src/main.go:172-175.
Kept only to compare the claimed discovery behaviour with the source's. -/
def claimedJupyterCandidates (home user : String) : List String :=
  [home ++ "/.local/bin/jupyter", "/home/" ++ user ++ "/.local/bin/jupyter",
   "/usr/local/bin/jupyter"]

/-- Modelled from the spec: discovery over the claimed candidate list. -/
def claimedFindJupyter (fsExists : String → Bool) (home user : String) : String :=
  firstExisting fsExists (claimedJupyterCandidates home user)

/-- The property "r is the first candidate of l that exists, or empty when
none exists". -/
def isFirstExisting (fsExists : String → Bool) (l : List String) (r : String) : Prop :=
  (r = "" ∧ ∀ p ∈ l, fsExists p = false) ∨
  (∃ l1 l2, l = l1 ++ r :: l2 ∧ fsExists r = true ∧ ∀ p ∈ l1, fsExists p = false)

/-- Go `filepath.ListSeparator` on unix. -/
def listSepChar : Char := ':'

/-- Embedding of src/main.go:31-37: the notebook directory defaults to `.`;
when `MACHBASE_NEO_FILE` is non-empty (Go `os.Getenv` yields `""` both for
unset and for empty) it is split on the path-list separator and — the split
being non-empty — the first token is taken. -/
def resolveNotebookDir (machbaseNeoFile : String) : String :=
  if machbaseNeoFile = "" then "."
  else
    match splitChars listSepChar machbaseNeoFile.data with
    | [] => "."
    | t :: _ => String.mk t

/-- A concrete supervisor state with no live handle, as built at
src/main.go:39-43. -/
def jlEx : JupyterLash :=
  { pythonBin := "/usr/bin/python3"
    jupyterBin := "/usr/local/bin/jupyter"
    notebookDir := "/data/nb"
    cmd := none }

/-- A concrete live handle (a spawned `*exec.Cmd`, so `Process != nil`). -/
def cmdLive : Cmd :=
  { spec := jlEx.startCmd (some "/root"), processSet := true }

/-- A hypothetical state holding a live handle — the situation the spec's
`Stop` contract speaks about. -/
def jlLive : JupyterLash :=
  { jlEx with cmd := some cmdLive }

/-- Whether an argument list mentions the fixed network surface the claim
describes: some argument containing `127.0.0.1` and some argument containing
`8888`. -/
def mentionsHostPort (args : List String) : Bool :=
  args.any (fun a => containsSub a "127.0.0.1") &&
  args.any (fun a => containsSub a "8888")

/-- A concrete filesystem oracle: exactly one path exists, the home-relative
jupyter path of user `alice` that the claim's candidate list would probe. -/
def fsOnlyAliceJupyter : String → Bool :=
  fun p => p == "/home/alice/.local/bin/jupyter"

/-- Supporting fact: had the loop's timer been a repeating 100ms ticker
(arbitrarily many ticks available), the polling loop could never block: it
exits or, by the 51st received tick (`count * 100ms > 5000ms`), times out. -/
theorem pollLoop_ticker_no_block (cmdNilAt : Nat → Bool) :
    ∀ ticks count, 50 < count + ticks → 0 < ticks →
      pollLoop cmdNilAt count ticks ≠ PollOutcome.blocked := by
  intro ticks
  induction ticks with
  | zero => intro count _ h0; exact absurd h0 (by omega)
  | succ t ih =>
    intro count hsum _
    simp only [pollLoop]
    by_cases h1 : cmdNilAt count = true
    · simp [h1]
    · simp only [Bool.not_eq_true] at h1
      simp only [h1, Bool.false_eq_true, if_false]
      by_cases h2 : (count + 1) * 100 > 5000
      · simp [h2]
      · rw [if_neg h2]
        exact ih (count + 1) (by omega) (by omega)

/-- Supporting fact: `splitChars` never returns the empty list (it models Go
`strings.Split`, which always yields at least one token). -/
theorem splitChars_ne_nil (sep : Char) (s : List Char) : splitChars sep s ≠ [] := by
  induction s with
  | nil => simp [splitChars]
  | cons c rest ih =>
    simp only [splitChars]
    split
    · simp
    · split <;> simp

/-- C1: For a `Start` call with no live handle, the embedding of
src/main.go:83-116 shows: on spawn failure the handle is left empty, the
failure is logged to stderr, and — `Start` having no return value — no error
reaches the caller; but on spawn success the handle is NOT recorded: no
assignment `jl.cmd = cmd` exists in the source (only `jl.cmd = nil` at lines
98 and 113), so after a successful spawn the handle is still `none`.  This
theorem evaluates both spawn outcomes at a concrete state. -/
theorem start_spawn_result_handling :
    jlEx.Start (some "/root") false =
      ({ jlEx with cmd := none },
        [Effect.spawnFail (jlEx.startCmd (some "/root")),
         Effect.logErr "fail to start: cmd:%q error:%v"]) ∧
    (jlEx.Start (some "/root") true).1.cmd = none ∧
    (jlEx.Start (some "/root") true).2 = [Effect.spawnOk (jlEx.startCmd (some "/root"))] :=
  ⟨rfl, rfl, rfl⟩

/-- C3: Two consecutive `Start` calls with no intervening `Stop`, both OS
spawns succeeding, perform TWO successful spawns of the notebook command —
the second call finds `jl.cmd` still `nil` (it is never assigned) and
launches again, so two children are live, contradicting idempotence of
`Start`. -/
theorem double_start_spawns_twice :
    runEff jlEx [Op.start (some "/root") true, Op.start (some "/root") true] =
      some (jlEx, [Effect.spawnOk (jlEx.startCmd (some "/root")),
                   Effect.spawnOk (jlEx.startCmd (some "/root"))]) ∧
    countSpawns [Effect.spawnOk (jlEx.startCmd (some "/root")),
                 Effect.spawnOk (jlEx.startCmd (some "/root"))] = 2 :=
  ⟨rfl, rfl⟩

/-- C5: `stop0` on a live handle whose child has not exited at the first
100ms tick never returns: the source builds the poll timer with
`time.NewTimer` (one tick, ever) instead of a repeating ticker, so the
second channel receive of the `for range tick.C` loop blocks forever —
no timeout is logged and `Stop` hangs, contrary to the claimed 100ms-poll /
5-second-budget behaviour.  The third conjunct shows the 5-second budget in
the loop body is reachable only with a repeating ticker (≥ 51 ticks). -/
theorem stop_poll_blocks_forever :
    jlLive.stop0 true false (fun _ => false) = none ∧
    pollLoop (fun _ => false) 0 1 = PollOutcome.blocked ∧
    pollLoop (fun _ => false) 0 51 = PollOutcome.timedOut :=
  ⟨rfl, rfl, by decide⟩

/-- C9: A `Stop` call with no live handle is a no-op: it returns (result is
`some`, not a blocked call), the supervisor state is unchanged, and no
effect — in particular no subprocess spawn — is performed
(src/main.go:74-81). -/
theorem stop_no_handle_noop (jl : JupyterLash) (spawnOk waitErr : Bool)
    (cmdNilAt : Nat → Bool) (h : jl.cmd = none) :
    jl.Stop spawnOk waitErr cmdNilAt = some (jl, []) := by
  unfold JupyterLash.Stop
  rw [h]

/-- Witness for C9 at a concrete no-handle state. -/
theorem stop_no_handle_noop_witness :
    jlEx.Stop true false (fun _ => false) = some (jlEx, []) :=
  stop_no_handle_noop jlEx true false (fun _ => false) rfl

/-- C8: The notebook directory resolution of src/main.go:31-37: an unset or
empty `MACHBASE_NEO_FILE` yields the current directory `.`; a non-empty
value yields its first path-list-separated token — in particular
`/data/nb:/other` yields `/data/nb`. -/
theorem notebookDir_first_token (d : String) (h : d ≠ "") :
    resolveNotebookDir "" = "." ∧
    resolveNotebookDir "/data/nb:/other" = "/data/nb" ∧
    ∃ rest, splitChars listSepChar d.data = (resolveNotebookDir d).data :: rest := by
  refine ⟨rfl, by decide, ?_⟩
  unfold resolveNotebookDir
  rw [if_neg h]
  cases hs : splitChars listSepChar d.data with
  | nil => exact absurd hs (splitChars_ne_nil _ _)
  | cons t ts => exact ⟨ts, rfl⟩

/-- Witness for C8 at the spec's concrete environment value. -/
theorem notebookDir_first_token_witness :
    resolveNotebookDir "" = "." ∧
    resolveNotebookDir "/data/nb:/other" = "/data/nb" ∧
    ∃ rest, splitChars listSepChar "/data/nb:/other".data =
      (resolveNotebookDir "/data/nb:/other").data :: rest :=
  notebookDir_first_token "/data/nb:/other" (by decide)

/-- Supporting step fact: from a state with an empty handle, every single
operation (a `Start` call with either spawn outcome, a `Stop` call, a
watcher exit) leaves the handle empty: the source's only assignments to
`jl.cmd` are `jl.cmd = nil`. -/
theorem applyOp_cmd_none (jl : JupyterLash) (op : Op) (jl' : JupyterLash)
    (effs : List Effect) (h : jl.cmd = none)
    (happ : applyOp jl op = some (jl', effs)) : jl'.cmd = none := by
  obtain ⟨pb, jb, nd, c⟩ := jl
  replace h : c = none := h
  subst h
  cases op with
  | start home spawnOk =>
    cases spawnOk with
    | true =>
      injection happ with hpair
      injection hpair with hst _
      subst hst
      rfl
    | false =>
      injection happ with hpair
      injection hpair with hst _
      subst hst
      rfl
  | stop spawnOk waitErr cmdNilAt =>
    injection happ with hpair
    injection hpair with hst _
    subst hst
    rfl
  | childExit waitErr =>
    injection happ with hpair
    injection hpair with hst _
    subst hst
    rfl

/-- C2: Starting from a state with an empty handle (the initial state of
src/main.go:39-43), after EVERY sequence of `Start` / `Stop` / watcher-exit
steps the `cmd` handle field is still `none` — no operation ever assigns it
a non-`nil` value — and consequently a `Stop` call at any reachable state
takes the empty-handle branch: it returns the state unchanged with no
effects, never reaching its shutdown logic `stop0`. -/
theorem cmd_handle_always_none (jl0 : JupyterLash) (h0 : jl0.cmd = none)
    (ops : List Op) (jl1 : JupyterLash) (effs : List Effect)
    (hrun : runEff jl0 ops = some (jl1, effs)) :
    jl1.cmd = none ∧
      ∀ spawnOk waitErr cmdNilAt,
        jl1.Stop spawnOk waitErr cmdNilAt = some (jl1, []) := by
  have hmain : jl1.cmd = none := by
    induction ops generalizing jl0 effs with
    | nil =>
      simp only [runEff, Option.some.injEq, Prod.mk.injEq] at hrun
      obtain ⟨h1, -⟩ := hrun
      subst h1
      exact h0
    | cons op ops ih =>
      simp only [runEff] at hrun
      cases happ : applyOp jl0 op with
      | none =>
        simp only [happ] at hrun
        exact Option.noConfusion hrun
      | some pr =>
        obtain ⟨jlm, e1⟩ := pr
        simp only [happ] at hrun
        cases hrec : runEff jlm ops with
        | none =>
          simp only [hrec] at hrun
          exact Option.noConfusion hrun
        | some pr2 =>
          obtain ⟨jl2, e2⟩ := pr2
          simp only [hrec, Option.some.injEq, Prod.mk.injEq] at hrun
          obtain ⟨h1, -⟩ := hrun
          subst h1
          exact ih jlm (applyOp_cmd_none jl0 op jlm e1 h0 happ) e2 hrec
  refine ⟨hmain, ?_⟩
  intro spawnOk waitErr cmdNilAt
  unfold JupyterLash.Stop
  rw [hmain]

/-- Witness for C2: a concrete run — a successful `Start` followed by a
`Stop` — after which the handle is still empty and `Stop` is still the
empty-handle no-op. -/
theorem cmd_handle_always_none_witness :
    jlEx.cmd = none ∧ jlEx.Stop true false (fun _ => false) = some (jlEx, []) := by
  have h := cmd_handle_always_none jlEx rfl
    [Op.start (some "/root") true, Op.stop true false (fun _ => false)] jlEx
    [Effect.spawnOk (jlEx.startCmd (some "/root"))] rfl
  exact ⟨h.1, h.2 true false (fun _ => false)⟩

/-- C4 counterexample: a `Stop` on a concrete live handle (with the `server
stop` subcommand spawning fine and the watcher having cleared the handle by
the first poll) performs NO signal delivery — `hasSignal` of its effect
trace is `false`, whereas the claim says an interrupt/termination signal is
sent to the child's process group/pid. -/
theorem stop_live_sends_no_signal_cex :
    Option.map hasSignal (jlLive.stop0 true false (fun _ => true)) = some false := rfl

/-- C4 (amended): For every `Stop` call on a live handle whose `stop0`
returns, the shutdown mechanism is running the jupyter binary as the
subcommand `server stop` (src/main.go:122): the first effect is the spawn of
that subcommand (successful or failed), and no signal is ever delivered. -/
theorem stop_shutdown_mechanism (jl : JupyterLash) (c : Cmd) (spawnOk waitErr : Bool)
    (cmdNilAt : Nat → Bool) (effs : List Effect)
    (hc : jl.cmd = some c) (hp : c.processSet = true)
    (hr : jl.stop0 spawnOk waitErr cmdNilAt = some effs) :
    hasSignal effs = false ∧
    effs.head? = some (if spawnOk then Effect.spawnOk jl.stopCmd
                       else Effect.spawnFail jl.stopCmd) ∧
    jl.stopCmd = { prog := jl.jupyterBin, args := ["server", "stop"],
                   env := none, inheritStdio := true } := by
  cases spawnOk with
  | false =>
    simp [JupyterLash.stop0, hc, hp] at hr
    subst hr
    exact ⟨rfl, rfl, rfl⟩
  | true =>
    cases waitErr with
    | false =>
      cases hpoll : pollLoop cmdNilAt 0 1 with
      | blocked => simp [JupyterLash.stop0, hc, hp, hpoll] at hr
      | timedOut =>
        simp [JupyterLash.stop0, hc, hp, hpoll] at hr
        subst hr
        exact ⟨rfl, rfl, rfl⟩
      | exited =>
        simp [JupyterLash.stop0, hc, hp, hpoll] at hr
        subst hr
        exact ⟨rfl, rfl, rfl⟩
    | true =>
      cases hpoll : pollLoop cmdNilAt 0 1 with
      | blocked => simp [JupyterLash.stop0, hc, hp, hpoll] at hr
      | timedOut =>
        simp [JupyterLash.stop0, hc, hp, hpoll] at hr
        subst hr
        exact ⟨rfl, rfl, rfl⟩
      | exited =>
        simp [JupyterLash.stop0, hc, hp, hpoll] at hr
        subst hr
        exact ⟨rfl, rfl, rfl⟩

/-- Witness for C4 (amended) at a concrete live state. -/
theorem stop_shutdown_mechanism_witness :
    hasSignal [Effect.spawnOk jlLive.stopCmd] = false ∧
    [Effect.spawnOk jlLive.stopCmd].head? =
      some (if true then Effect.spawnOk jlLive.stopCmd
            else Effect.spawnFail jlLive.stopCmd) ∧
    jlLive.stopCmd = { prog := jlLive.jupyterBin, args := ["server", "stop"],
                       env := none, inheritStdio := true } :=
  stop_shutdown_mechanism jlLive cmdLive true false (fun _ => true)
    [Effect.spawnOk jlLive.stopCmd] rfl rfl rfl

/-- C6 counterexample: the concrete child command launched by `Start`
(src/main.go:85) carries NO bind-address or port argument: no argument of
the launch mentions `127.0.0.1` or `8888`, whereas the claim says every
launched child is invoked with bind address `127.0.0.1` and port `8888`. -/
theorem start_args_no_host_port_cex :
    mentionsHostPort (jlEx.startCmd (some "/root")).args = false := by decide

/-- C6 (amended): Every child launched by `Start` from an empty-handle state
is invoked as python running the jupyter binary with exactly the fixed
arguments `lab`, `-y`, `--no-browser`, `--notebook-dir <dir>` — no
bind-address, port, base-URL, remote-access or token arguments exist in the
source (the comment at src/main.go:84 leaves `--ip`/`--port` unwritten). -/
theorem start_fixed_args (jl : JupyterLash) (home : Option String) (h : jl.cmd = none) :
    (jl.Start home true).2 =
      [Effect.spawnOk
        { prog := jl.pythonBin
          args := [jl.jupyterBin, "lab", "-y", "--no-browser", "--notebook-dir", jl.notebookDir]
          env := some (homeEnv home)
          inheritStdio := true }] := by
  unfold JupyterLash.Start
  rw [h]
  exact rfl

/-- Witness for C6 (amended) at a concrete state. -/
theorem start_fixed_args_witness :
    (jlEx.Start (some "/root") true).2 =
      [Effect.spawnOk
        { prog := jlEx.pythonBin
          args := [jlEx.jupyterBin, "lab", "-y", "--no-browser", "--notebook-dir",
                   jlEx.notebookDir]
          env := some (homeEnv (some "/root"))
          inheritStdio := true }] :=
  start_fixed_args jlEx (some "/root") rfl

/-- Supporting fact: the probing loop shared by both finders returns the
first existing candidate, or the empty string when none exists. -/
theorem firstExisting_isFirst (fsExists : String → Bool) :
    ∀ l, isFirstExisting fsExists l (firstExisting fsExists l) := by
  intro l
  induction l with
  | nil => exact Or.inl ⟨rfl, by simp⟩
  | cons p rest ih =>
    by_cases hp : fsExists p = true
    · refine Or.inr ⟨[], rest, ?_, ?_, by simp⟩
      · simp [firstExisting, hp]
      · simp [firstExisting, hp]
    · rw [Bool.not_eq_true] at hp
      have hstep : firstExisting fsExists (p :: rest) = firstExisting fsExists rest := by
        show (if fsExists p = true then p else firstExisting fsExists rest) =
          firstExisting fsExists rest
        rw [hp]
        simp
      rw [hstep]
      cases ih with
      | inl hcase =>
        refine Or.inl ⟨hcase.1, ?_⟩
        intro q hq
        rcases List.mem_cons.mp hq with rfl | hq2
        · exact hp
        · exact hcase.2 q hq2
      | inr hcase =>
        obtain ⟨l1, l2, heq, hfe, hall⟩ := hcase
        refine Or.inr ⟨p :: l1, l2, by rw [List.cons_append, ← heq], hfe, ?_⟩
        intro q hq
        rcases List.mem_cons.mp hq with rfl | hq2
        · exact hp
        · exact hall q hq2

/-- C7 counterexample: with a filesystem where exactly
`/home/alice/.local/bin/jupyter` exists and a home directory of `/root`,
discovery over the claim's three-candidate list would return the
`/home/${USER}` path, but the source's `findJupyterExecutable`
(src/main.go:171-188) probes no such candidate and returns empty. -/
theorem jupyter_candidates_cex :
    claimedFindJupyter fsOnlyAliceJupyter "/root" "alice" =
      "/home/alice/.local/bin/jupyter" ∧
    findJupyterExecutable fsOnlyAliceJupyter (some "/root") = "" := by
  constructor
  · decide
  · decide

/-- C7 (amended): Binary discovery returns the first existing path of its
ordered candidate list and empty when none exists; the python candidates are
`/usr/bin/python3` then `/usr/bin/python`, and the jupyter candidates are
`$HOME/.local/bin/jupyter` (with `$HOME` expanded when the home directory
resolves) then `/usr/local/bin/jupyter` — there is no
`/home/${USER}/.local/bin/jupyter` candidate. -/
theorem discovery_first_existing (fsExists : String → Bool) (home : Option String) :
    isFirstExisting fsExists pythonCandidates (findPython fsExists) ∧
    isFirstExisting fsExists (jupyterCandidatesRaw.map (expandHome home))
      (findJupyterExecutable fsExists home) ∧
    pythonCandidates = ["/usr/bin/python3", "/usr/bin/python"] ∧
    jupyterCandidatesRaw = ["$HOME/.local/bin/jupyter", "/usr/local/bin/jupyter"] :=
  ⟨firstExisting_isFirst fsExists pythonCandidates,
   firstExisting_isFirst fsExists (jupyterCandidatesRaw.map (expandHome home)),
   rfl, rfl⟩

/-- C10: Every child launched by `Start` from an empty-handle state runs
with the explicitly assigned environment built at src/main.go:89-92 — not
the inherited one — holding at most the single variable `HOME`, present
exactly when the user home directory resolves; meanwhile the child inherits
the supervisor's stdio streams (src/main.go:86-88). -/
theorem start_child_env_home_only (jl : JupyterLash) (home : Option String)
    (h : jl.cmd = none) :
    (jl.Start home true).2 = [Effect.spawnOk (jl.startCmd home)] ∧
    ∃ es, (jl.startCmd home).env = some es ∧ es.length ≤ 1 ∧
      (∀ e ∈ es, ∃ hm, home = some hm ∧ e = "HOME=" ++ hm) ∧
      (home = none → es = []) ∧
      (jl.startCmd home).inheritStdio = true := by
  constructor
  · unfold JupyterLash.Start
    rw [h]
    exact rfl
  · cases home with
    | none => exact ⟨[], rfl, by simp, by simp, fun _ => rfl, rfl⟩
    | some hm =>
      refine ⟨["HOME=" ++ hm], rfl, by simp, ?_, by simp, rfl⟩
      intro e he
      rw [List.mem_singleton] at he
      exact ⟨hm, rfl, he⟩

/-- Witness for C10 at a concrete state and resolved home directory. -/
theorem start_child_env_home_only_witness :
    (jlEx.Start (some "/root") true).2 =
      [Effect.spawnOk (jlEx.startCmd (some "/root"))] ∧
    ∃ es, (jlEx.startCmd (some "/root")).env = some es ∧ es.length ≤ 1 ∧
      (∀ e ∈ es, ∃ hm, (some "/root" : Option String) = some hm ∧ e = "HOME=" ++ hm) ∧
      ((some "/root" : Option String) = none → es = []) ∧
      (jlEx.startCmd (some "/root")).inheritStdio = true :=
  start_child_env_home_only jlEx (some "/root") rfl
